import Mathlib

/-!
Shallow embedding of the scenario projection engine of the
Construction-Materials-Consulting-Simulation repository
(`construction_materials_sim/core/{carbon_pricing,steel,cement,market}.py`
and `construction_materials_sim/main.py`).

Python floats are modelled as exact rationals (ℚ); every arithmetic
formula is transcribed verbatim from the source.  Year series are
modelled as functions from the year offset `k = year - start_year : ℕ`
to ℚ, together with explicit lists over the simulated range where a
claim speaks about the produced table.
-/

set_option linter.unusedVariables false

namespace ConstructionSim

/-! ### Year range (the `start_year`/`end_year`/`years` data shared by all models) -/

/-- The `start_year`, `end_year` pair every model constructor stores;
`years = np.arange(start_year, end_year + 1)`. -/
structure ModelRange where
  start_year : ℤ
  end_year : ℤ
deriving Repr, DecidableEq

/-- Number of simulated years, `len(np.arange(start, end+1))`. -/
def ModelRange.numYears (r : ModelRange) : ℕ := (r.end_year + 1 - r.start_year).toNat

/-! ### Carbon pricing model (`core/carbon_pricing.py`) -/

/-- `CarbonPriceScenario` dataclass (the `name` field is omitted: it is a
label never read by any computation). -/
structure CarbonPriceScenario where
  eu_ets_base : ℚ
  eu_ets_growth_rate : ℚ
  cbam_implementation_year : ℤ
  us_carbon_price_start : ℚ
  us_carbon_price_growth : ℚ
  asian_market_adoption_rate : ℚ
  global_south_adoption_rate : ℚ
deriving Repr, DecidableEq

/-- Regions used by `CarbonPricingModel._init_base_data`. -/
inductive Region | EU | US | Asia | GlobalSouth
deriving Repr, DecidableEq

/-- `self.base_prices` (EUR/tCO2). -/
def base_prices : Region → ℚ
  | .EU => 80.0
  | .US => 50.0
  | .Asia => 30.0
  | .GlobalSouth => 15.0

/-- `self.carbon_intensity` (tCO2/t product). -/
def carbon_intensity : Region → ℚ
  | .EU => 1.8
  | .US => 2.0
  | .Asia => 2.3
  | .GlobalSouth => 2.5

/-- `self.base_trade_flows` (million tonnes). -/
def base_trade_flows_US_imports : ℚ := 35.0

/-- `self.base_trade_flows['Asia_exports']`. -/
def base_trade_flows_Asia_exports : ℚ := 60.0

/-- `self.base_trade_flows['Global_South_exports']`. -/
def base_trade_flows_Global_South_exports : ℚ := 25.0

/-- `_calculate_eu_prices` at year offset `k`:
`eu_ets_base * (1 + eu_ets_growth_rate) ** k`. -/
def calculate_eu_price (s : CarbonPriceScenario) (k : ℕ) : ℚ :=
  s.eu_ets_base * (1 + s.eu_ets_growth_rate) ^ k

/-- `_calculate_us_prices` at year offset `k`. -/
def calculate_us_price (s : CarbonPriceScenario) (k : ℕ) : ℚ :=
  s.us_carbon_price_start * (1 + s.us_carbon_price_growth) ^ k

/-- `_calculate_asian_prices` at year offset `k`:
`base_prices['Asia'] * (1 + asian_market_adoption_rate) ** k`. -/
def calculate_asian_price (s : CarbonPriceScenario) (k : ℕ) : ℚ :=
  base_prices .Asia * (1 + s.asian_market_adoption_rate) ^ k

/-- `_calculate_global_south_prices` at year offset `k`. -/
def calculate_global_south_price (s : CarbonPriceScenario) (k : ℕ) : ℚ :=
  base_prices .GlobalSouth * (1 + s.global_south_adoption_rate) ^ k

/-- The `eu_ets` column of the `carbon_prices` table, as a list over the
simulated years. -/
def eu_prices_list (r : ModelRange) (s : CarbonPriceScenario) : List ℚ :=
  (List.range r.numYears).map (calculate_eu_price s)

/-- `_calculate_cbam_impact` at year offset `k` for a region column:
`np.where(years >= cbam_implementation_year, carbon_diff * eu_prices, 0)`
with `carbon_diff = carbon_intensity[region] - carbon_intensity['EU']`. -/
def calculate_cbam_charge (r : ModelRange) (s : CarbonPriceScenario)
    (region : Region) (k : ℕ) : ℚ :=
  if s.cbam_implementation_year ≤ r.start_year + k then
    (carbon_intensity region - carbon_intensity .EU) * calculate_eu_price s k
  else 0

/-! ### Claim theorems for the carbon pricing model -/

/-- **C3.** For every scenario and every year offset in the simulated
range, the `eu_ets` entry of the produced price table is exactly
`eu_ets_base * (1 + eu_ets_growth_rate) ^ (y - start_year)` (exact
rational equality, hence within every positive tolerance), and for the
concrete scenario `start_year=2025, end_year=2027, eu_ets_base=80.0,
eu_ets_growth_rate=0.08` the EU price sequence is exactly
`[80.0, 86.4, 93.312]`. -/
theorem C3_eu_price_geometric :
    (∀ (r : ModelRange) (s : CarbonPriceScenario) (k : ℕ), k < r.numYears →
      (eu_prices_list r s).get? k =
        some (s.eu_ets_base * (1 + s.eu_ets_growth_rate) ^ k)) ∧
    eu_prices_list ⟨2025, 2027⟩
      ⟨80.0, 0.08, 2026, 64.0, 0.08, 0.05, 0.03⟩ = [80.0, 86.4, 93.312] := by
  constructor
  · intro r s k hk
    rw [eu_prices_list, List.get?_eq_getElem?, List.getElem?_map,
      List.getElem?_range hk]
    rfl
  · have h : eu_prices_list ⟨2025, 2027⟩ ⟨80.0, 0.08, 2026, 64.0, 0.08, 0.05, 0.03⟩ =
        [(80.0 : ℚ) * (1 + 0.08) ^ 0, 80.0 * (1 + 0.08) ^ 1, 80.0 * (1 + 0.08) ^ 2] := rfl
    rw [h]
    norm_num

/-- Witness for C3 at a concrete range, scenario and year offset. -/
theorem C3_eu_price_geometric_witness :
    (eu_prices_list ⟨2025, 2027⟩ ⟨80.0, 0.08, 2026, 64.0, 0.08, 0.05, 0.03⟩).get? 1 =
      some ((80.0 : ℚ) * (1 + 0.08) ^ 1) :=
  C3_eu_price_geometric.1 ⟨2025, 2027⟩ ⟨80.0, 0.08, 2026, 64.0, 0.08, 0.05, 0.03⟩ 1
    (by norm_num [ModelRange.numYears])

/-- **C6.** For each non-EU region (Asia, Global South) and every year,
the CBAM charge equals `max 0 (region_intensity - EU_intensity) * eu_price`
from the implementation year onward and `0` before it.  (The source does
not clamp the differential, but for the model's fixed intensities both
differentials are positive, so the clamped formula agrees.) -/
theorem C6_cbam_charge (r : ModelRange) (s : CarbonPriceScenario)
    (region : Region) (k : ℕ)
    (hreg : region = Region.Asia ∨ region = Region.GlobalSouth) :
    calculate_cbam_charge r s region k =
      if s.cbam_implementation_year ≤ r.start_year + k then
        max 0 (carbon_intensity region - carbon_intensity .EU) *
          calculate_eu_price s k
      else 0 := by
  rcases hreg with h | h <;> subst h <;>
    simp only [calculate_cbam_charge, carbon_intensity] <;> norm_num

/-- Witness for C6: Asia in 2026 with `cbam_implementation_year = 2026`. -/
theorem C6_cbam_charge_witness :
    calculate_cbam_charge ⟨2025, 2040⟩ ⟨80.0, 0.08, 2026, 64.0, 0.08, 0.05, 0.03⟩
        Region.Asia 1 =
      if (2026 : ℤ) ≤ 2025 + (1 : ℕ) then
        max 0 (carbon_intensity .Asia - carbon_intensity .EU) *
          calculate_eu_price ⟨80.0, 0.08, 2026, 64.0, 0.08, 0.05, 0.03⟩ 1
      else 0 :=
  C6_cbam_charge ⟨2025, 2040⟩ _ Region.Asia 1 (Or.inl rfl)

/-- **C10.** For every scenario, the Asian carbon price at the start year
(offset 0) is exactly 30.0 and the Global South price is exactly 15.0:
the bases are the model constants `base_prices['Asia']` and
`base_prices['Global South']`, which no scenario field can change. -/
theorem C10_fixed_regional_bases (s : CarbonPriceScenario) :
    calculate_asian_price s 0 = 30.0 ∧ calculate_global_south_price s 0 = 15.0 := by
  constructor <;> simp [calculate_asian_price, calculate_global_south_price,
    base_prices]

/-! ### Steel industry model (`core/steel.py`) -/

/-- The three steel technologies of `SteelIndustryModel._init_technologies`. -/
inductive SteelTech | BFBOF | EAF | H2DRI
deriving Repr, DecidableEq

/-- `SteelScenario` dataclass (label `name` omitted). -/
structure SteelScenario where
  carbon_price_start : ℚ
  carbon_price_growth : ℚ
  hydrogen_cost_start : ℚ
  hydrogen_cost_growth : ℚ
  electricity_cost_start : ℚ
  electricity_cost_growth : ℚ
  scrap_availability_growth : ℚ
  technology_adoption_rate : ℚ
deriving Repr, DecidableEq

/-- `capex_base` of each steel technology (EUR/tonne). -/
def steel_capex_base : SteelTech → ℚ
  | .BFBOF => 800.0
  | .EAF => 600.0
  | .H2DRI => 1200.0

/-- `opex_base` of each steel technology (EUR/tonne). -/
def steel_opex_base : SteelTech → ℚ
  | .BFBOF => 400.0
  | .EAF => 300.0
  | .H2DRI => 500.0

/-- `carbon_intensity` of each steel technology (tCO2/tonne). -/
def steel_tech_carbon_intensity : SteelTech → ℚ
  | .BFBOF => 1.8
  | .EAF => 0.3
  | .H2DRI => 0.1

/-- `learning_rate` of each steel technology. -/
def steel_learning_rate : SteelTech → ℚ
  | .BFBOF => 0.01
  | .EAF => 0.02
  | .H2DRI => 0.05

/-- `self.initial_mix` (technology mix in 2025). -/
def steel_initial_mix : SteelTech → ℚ
  | .BFBOF => 0.70
  | .EAF => 0.25
  | .H2DRI => 0.05

/-- `self.base_production` (million tonnes). -/
def steel_base_production : ℚ := 1900.0

/-- `SteelIndustryModel._calculate_cost_evolution`:
`{tech}_total_cost` column at year offset `k`. -/
def steel_total_cost (s : SteelScenario) (t : SteelTech) (k : ℕ) : ℚ :=
  let carbon_price := s.carbon_price_start * (1 + s.carbon_price_growth) ^ k
  let hydrogen_cost := s.hydrogen_cost_start * (1 + s.hydrogen_cost_growth) ^ k
  let electricity_cost := s.electricity_cost_start * (1 + s.electricity_cost_growth) ^ k
  let base_capex := steel_capex_base t * (1 - steel_learning_rate t) ^ k
  let base_opex := steel_opex_base t * (1 - steel_learning_rate t) ^ k
  let carbon_cost := steel_tech_carbon_intensity t * carbon_price
  let energy_cost :=
    match t with
    | .H2DRI => 50 * hydrogen_cost
    | .EAF => 0.5 * electricity_cost
    | .BFBOF => 0.2 * electricity_cost
  base_capex + base_opex + carbon_cost + energy_cost

/-- `SteelIndustryModel._calculate_technology_adoption`, parameterised by the
`costs` table it receives (in the pipeline, `steel_total_cost s`):
the first year is the initial mix, later years follow
`prev * (1 - adoption_rate) + (1 - cost_share) * adoption_rate` with
`cost_share = cost / total_cost`. -/
def steel_adoption (s : SteelScenario) (costs : SteelTech → ℕ → ℚ) :
    SteelTech → ℕ → ℚ
  | t, 0 => steel_initial_mix t
  | t, k + 1 =>
    let total_cost := costs .BFBOF (k + 1) + costs .EAF (k + 1) + costs .H2DRI (k + 1)
    let cost_share := costs t (k + 1) / total_cost
    steel_adoption s costs t k * (1 - s.technology_adoption_rate) +
      (1 - cost_share) * s.technology_adoption_rate

/-! ### Cement industry model (`core/cement.py`) -/

/-- The three cement technologies of `CementIndustryModel._init_technologies`. -/
inductive CementTech | Conventional | Efficient | Alternative
deriving Repr, DecidableEq

/-- `CementScenario` dataclass (label `name` omitted). -/
structure CementScenario where
  carbon_price_start : ℚ
  carbon_price_growth : ℚ
  electricity_cost_start : ℚ
  electricity_cost_growth : ℚ
  alternative_fuel_cost_start : ℚ
  alternative_fuel_cost_growth : ℚ
  clinker_substitution_rate : ℚ
  technology_adoption_rate : ℚ
deriving Repr, DecidableEq

/-- `capex_base` of each cement technology (EUR/tonne). -/
def cement_capex_base : CementTech → ℚ
  | .Conventional => 150.0
  | .Efficient => 200.0
  | .Alternative => 250.0

/-- `opex_base` of each cement technology (EUR/tonne). -/
def cement_opex_base : CementTech → ℚ
  | .Conventional => 40.0
  | .Efficient => 35.0
  | .Alternative => 45.0

/-- `carbon_intensity` of each cement technology (tCO2/tonne). -/
def cement_tech_carbon_intensity : CementTech → ℚ
  | .Conventional => 0.85
  | .Efficient => 0.75
  | .Alternative => 0.40

/-- `learning_rate` of each cement technology. -/
def cement_learning_rate : CementTech → ℚ
  | .Conventional => 0.01
  | .Efficient => 0.02
  | .Alternative => 0.05

/-- `alternative_fuel_share` of each cement technology. -/
def cement_alternative_fuel_share : CementTech → ℚ
  | .Conventional => 0.10
  | .Efficient => 0.25
  | .Alternative => 0.40

/-- `self.initial_mix` (technology mix in 2025). -/
def cement_initial_mix : CementTech → ℚ
  | .Conventional => 0.60
  | .Efficient => 0.35
  | .Alternative => 0.05

/-- `self.base_production` (million tonnes). -/
def cement_base_production : ℚ := 4200.0

/-- `CementIndustryModel._calculate_cost_evolution`:
`{tech}_total_cost` column at year offset `k`. -/
def cement_total_cost (s : CementScenario) (t : CementTech) (k : ℕ) : ℚ :=
  let carbon_price := s.carbon_price_start * (1 + s.carbon_price_growth) ^ k
  let electricity_cost := s.electricity_cost_start * (1 + s.electricity_cost_growth) ^ k
  let alt_fuel_cost := s.alternative_fuel_cost_start * (1 + s.alternative_fuel_cost_growth) ^ k
  let base_capex := cement_capex_base t * (1 - cement_learning_rate t) ^ k
  let base_opex := cement_opex_base t * (1 - cement_learning_rate t) ^ k
  let carbon_cost := cement_tech_carbon_intensity t * carbon_price
  let energy_cost :=
    (1 - cement_alternative_fuel_share t) * 0.1 * electricity_cost +
      cement_alternative_fuel_share t * 0.2 * alt_fuel_cost
  base_capex + base_opex + carbon_cost + energy_cost

/-- `CementIndustryModel._calculate_technology_adoption`, parameterised by
the `costs` table it receives (in the pipeline, `cement_total_cost s`). -/
def cement_adoption (s : CementScenario) (costs : CementTech → ℕ → ℚ) :
    CementTech → ℕ → ℚ
  | t, 0 => cement_initial_mix t
  | t, k + 1 =>
    let total_cost :=
      costs .Conventional (k + 1) + costs .Efficient (k + 1) + costs .Alternative (k + 1)
    let cost_share := costs t (k + 1) / total_cost
    cement_adoption s costs t k * (1 - s.technology_adoption_rate) +
      (1 - cost_share) * s.technology_adoption_rate

/-! ### Helper lemmas for the adoption-share recurrence -/

/-- One smoothing step `a * (1 - r) + b * r` with `r ∈ [0,1]` stays in `[0,1]`
when both endpoints do. -/
lemma smoothing_step_bounds (a b r : ℚ) (ha0 : 0 ≤ a) (ha1 : a ≤ 1)
    (hb0 : 0 ≤ b) (hb1 : b ≤ 1) (hr0 : 0 ≤ r) (hr1 : r ≤ 1) :
    0 ≤ a * (1 - r) + b * r ∧ a * (1 - r) + b * r ≤ 1 := by
  constructor <;> nlinarith

/-- One smoothing step `a * (1 - r) + b * r` with `r ∈ [0,1]` lies between
`a` and `b`, inclusive. -/
lemma smoothing_step_between (a b r : ℚ) (hr0 : 0 ≤ r) (hr1 : r ≤ 1) :
    min a b ≤ a * (1 - r) + b * r ∧ a * (1 - r) + b * r ≤ max a b := by
  rcases le_total a b with h | h
  · rw [min_eq_left h, max_eq_right h]
    constructor <;> nlinarith
  · rw [min_eq_right h, max_eq_left h]
    constructor <;> nlinarith

/-- If `0 < c` and `c ≤ total` then `1 - c / total ∈ [0,1]`. -/
lemma one_sub_cost_share_bounds (c total : ℚ) (hc : 0 < c) (hle : c ≤ total) :
    0 ≤ 1 - c / total ∧ 1 - c / total ≤ 1 := by
  have htot : 0 < total := lt_of_lt_of_le hc hle
  constructor
  · have : c / total ≤ 1 := (div_le_one htot).mpr hle
    linarith
  · have : 0 ≤ c / total := le_of_lt (div_pos hc htot)
    linarith

/-- In the steel recurrence, `1 - cost_share` is in `[0,1]` when every
technology's cost in that year is positive. -/
lemma steel_one_sub_cost_share (costs : SteelTech → ℕ → ℚ)
    (hpos : ∀ t k, 0 < costs t k) (t : SteelTech) (k : ℕ) :
    0 ≤ 1 - costs t k / (costs .BFBOF k + costs .EAF k + costs .H2DRI k) ∧
      1 - costs t k / (costs .BFBOF k + costs .EAF k + costs .H2DRI k) ≤ 1 := by
  apply one_sub_cost_share_bounds _ _ (hpos t k)
  have h1 := hpos SteelTech.BFBOF k
  have h2 := hpos SteelTech.EAF k
  have h3 := hpos SteelTech.H2DRI k
  cases t <;> linarith

/-- In the cement recurrence, `1 - cost_share` is in `[0,1]` when every
technology's cost in that year is positive. -/
lemma cement_one_sub_cost_share (costs : CementTech → ℕ → ℚ)
    (hpos : ∀ t k, 0 < costs t k) (t : CementTech) (k : ℕ) :
    0 ≤ 1 - costs t k /
        (costs .Conventional k + costs .Efficient k + costs .Alternative k) ∧
      1 - costs t k /
        (costs .Conventional k + costs .Efficient k + costs .Alternative k) ≤ 1 := by
  apply one_sub_cost_share_bounds _ _ (hpos t k)
  have h1 := hpos CementTech.Conventional k
  have h2 := hpos CementTech.Efficient k
  have h3 := hpos CementTech.Alternative k
  cases t <;> linarith

/-! ### Claim theorems for the technology-adoption recurrence -/

/-- **C4.** For every steel or cement scenario with
`technology_adoption_rate ∈ [0,1]` and strictly positive per-technology
costs in every year, every adoption share produced by
`_calculate_technology_adoption` lies in `[0,1]` for every year. -/
theorem C4_adoption_share_in_unit_interval :
    (∀ (s : SteelScenario) (costs : SteelTech → ℕ → ℚ),
      0 ≤ s.technology_adoption_rate → s.technology_adoption_rate ≤ 1 →
      (∀ t k, 0 < costs t k) →
      ∀ t k, 0 ≤ steel_adoption s costs t k ∧ steel_adoption s costs t k ≤ 1) ∧
    (∀ (s : CementScenario) (costs : CementTech → ℕ → ℚ),
      0 ≤ s.technology_adoption_rate → s.technology_adoption_rate ≤ 1 →
      (∀ t k, 0 < costs t k) →
      ∀ t k, 0 ≤ cement_adoption s costs t k ∧ cement_adoption s costs t k ≤ 1) := by
  constructor
  · intro s costs hr0 hr1 hpos t k
    induction k with
    | zero =>
      cases t <;> simp [steel_adoption, steel_initial_mix] <;> norm_num
    | succ k ih =>
      have hcs := steel_one_sub_cost_share costs hpos t (k + 1)
      exact smoothing_step_bounds _ _ _ ih.1 ih.2 hcs.1 hcs.2 hr0 hr1
  · intro s costs hr0 hr1 hpos t k
    induction k with
    | zero =>
      cases t <;> simp [cement_adoption, cement_initial_mix] <;> norm_num
    | succ k ih =>
      have hcs := cement_one_sub_cost_share costs hpos t (k + 1)
      exact smoothing_step_bounds _ _ _ ih.1 ih.2 hcs.1 hcs.2 hr0 hr1

/-- Witness for C4 at a concrete scenario, constant unit costs, and one
technology/year for each industry. -/
theorem C4_adoption_share_in_unit_interval_witness :
    (0 ≤ steel_adoption ⟨80, 0.08, 4, -0.05, 60, 0.02, 0.03, 0.05⟩
        (fun _ _ => 1) SteelTech.H2DRI 2 ∧
      steel_adoption ⟨80, 0.08, 4, -0.05, 60, 0.02, 0.03, 0.05⟩
        (fun _ _ => 1) SteelTech.H2DRI 2 ≤ 1) ∧
    (0 ≤ cement_adoption ⟨80, 0.08, 60, 0.02, 30, -0.03, 0.05, 0.04⟩
        (fun _ _ => 1) CementTech.Alternative 2 ∧
      cement_adoption ⟨80, 0.08, 60, 0.02, 30, -0.03, 0.05, 0.04⟩
        (fun _ _ => 1) CementTech.Alternative 2 ≤ 1) :=
  ⟨C4_adoption_share_in_unit_interval.1 _ (fun _ _ => 1)
      (by norm_num) (by norm_num) (fun _ _ => by norm_num) SteelTech.H2DRI 2,
    C4_adoption_share_in_unit_interval.2 _ (fun _ _ => 1)
      (by norm_num) (by norm_num) (fun _ _ => by norm_num) CementTech.Alternative 2⟩

/-- **C5.** For every steel or cement scenario with
`technology_adoption_rate ∈ [0,1]` and strictly positive per-technology
costs, each year's adoption share lies between the previous year's share
and `1 - cost_share` of the current year, inclusive (a convex
combination). -/
theorem C5_adoption_share_convex_combination :
    (∀ (s : SteelScenario) (costs : SteelTech → ℕ → ℚ),
      0 ≤ s.technology_adoption_rate → s.technology_adoption_rate ≤ 1 →
      (∀ t k, 0 < costs t k) →
      ∀ t k,
        min (steel_adoption s costs t k)
            (1 - costs t (k + 1) /
              (costs .BFBOF (k + 1) + costs .EAF (k + 1) + costs .H2DRI (k + 1))) ≤
          steel_adoption s costs t (k + 1) ∧
        steel_adoption s costs t (k + 1) ≤
          max (steel_adoption s costs t k)
            (1 - costs t (k + 1) /
              (costs .BFBOF (k + 1) + costs .EAF (k + 1) + costs .H2DRI (k + 1)))) ∧
    (∀ (s : CementScenario) (costs : CementTech → ℕ → ℚ),
      0 ≤ s.technology_adoption_rate → s.technology_adoption_rate ≤ 1 →
      (∀ t k, 0 < costs t k) →
      ∀ t k,
        min (cement_adoption s costs t k)
            (1 - costs t (k + 1) /
              (costs .Conventional (k + 1) + costs .Efficient (k + 1) +
                costs .Alternative (k + 1))) ≤
          cement_adoption s costs t (k + 1) ∧
        cement_adoption s costs t (k + 1) ≤
          max (cement_adoption s costs t k)
            (1 - costs t (k + 1) /
              (costs .Conventional (k + 1) + costs .Efficient (k + 1) +
                costs .Alternative (k + 1)))) := by
  constructor
  · intro s costs hr0 hr1 hpos t k
    exact smoothing_step_between _ _ _ hr0 hr1
  · intro s costs hr0 hr1 hpos t k
    exact smoothing_step_between _ _ _ hr0 hr1

/-- Witness for C5 at a concrete scenario, constant unit costs, one
technology and one year for each industry. -/
theorem C5_adoption_share_convex_combination_witness :
    (min (steel_adoption ⟨80, 0.08, 4, -0.05, 60, 0.02, 0.03, 0.05⟩
          (fun _ _ => 1) SteelTech.EAF 0) (1 - 1 / (1 + 1 + 1)) ≤
        steel_adoption ⟨80, 0.08, 4, -0.05, 60, 0.02, 0.03, 0.05⟩
          (fun _ _ => 1) SteelTech.EAF 1 ∧
      steel_adoption ⟨80, 0.08, 4, -0.05, 60, 0.02, 0.03, 0.05⟩
          (fun _ _ => 1) SteelTech.EAF 1 ≤
        max (steel_adoption ⟨80, 0.08, 4, -0.05, 60, 0.02, 0.03, 0.05⟩
          (fun _ _ => 1) SteelTech.EAF 0) (1 - 1 / (1 + 1 + 1))) ∧
    (min (cement_adoption ⟨80, 0.08, 60, 0.02, 30, -0.03, 0.05, 0.04⟩
          (fun _ _ => 1) CementTech.Efficient 0) (1 - 1 / (1 + 1 + 1)) ≤
        cement_adoption ⟨80, 0.08, 60, 0.02, 30, -0.03, 0.05, 0.04⟩
          (fun _ _ => 1) CementTech.Efficient 1 ∧
      cement_adoption ⟨80, 0.08, 60, 0.02, 30, -0.03, 0.05, 0.04⟩
          (fun _ _ => 1) CementTech.Efficient 1 ≤
        max (cement_adoption ⟨80, 0.08, 60, 0.02, 30, -0.03, 0.05, 0.04⟩
          (fun _ _ => 1) CementTech.Efficient 0) (1 - 1 / (1 + 1 + 1))) :=
  ⟨C5_adoption_share_convex_combination.1 _ (fun _ _ => 1)
      (by norm_num) (by norm_num) (fun _ _ => by norm_num) SteelTech.EAF 0,
    C5_adoption_share_convex_combination.2 _ (fun _ _ => 1)
      (by norm_num) (by norm_num) (fun _ _ => by norm_num) CementTech.Efficient 0⟩

/-! ### Full per-industry result bundles (`simulate_scenario` outputs) -/

/-- `self.regional_markets[region]['regulatory_pressure']`. -/
def regional_regulatory_pressure : Region → ℚ
  | .EU => 0.9
  | .US => 0.7
  | .Asia => 0.5
  | .GlobalSouth => 0.3

/-- `self.regional_markets[region]['market_maturity']`. -/
def regional_market_maturity : Region → ℚ
  | .EU => 0.8
  | .US => 0.6
  | .Asia => 0.4
  | .GlobalSouth => 0.2

/-- `self.regional_markets[region]['price_sensitivity']`. -/
def regional_price_sensitivity : Region → ℚ
  | .EU => 0.7
  | .US => 0.8
  | .Asia => 0.9
  | .GlobalSouth => 0.95

/-- The tables returned by `CarbonPricingModel.simulate_scenario`, each
column as a year-offset series. -/
structure CarbonResults where
  eu_ets : ℕ → ℚ
  us_price : ℕ → ℚ
  asian_price : ℕ → ℚ
  global_south_price : ℕ → ℚ
  cbam_charge : Region → ℕ → ℚ
  eu_us_shift : ℕ → ℚ
  eu_asia_shift : ℕ → ℚ
  eu_global_south_shift : ℕ → ℚ
  asia_cbam_impact : ℕ → ℚ
  global_south_cbam_impact : ℕ → ℚ
  maturity : Region → ℕ → ℚ
  pressure : Region → ℕ → ℚ
  sensitivity : Region → ℕ → ℚ

/-- `CarbonPricingModel.simulate_scenario`. -/
def carbon_simulate (r : ModelRange) (s : CarbonPriceScenario) : CarbonResults :=
  let eu := calculate_eu_price s
  let us := calculate_us_price s
  let asia := calculate_asian_price s
  let gs := calculate_global_south_price s
  let cbam := calculate_cbam_charge r s
  { eu_ets := eu
    us_price := us
    asian_price := asia
    global_south_price := gs
    cbam_charge := cbam
    eu_us_shift := fun k => base_trade_flows_US_imports * (1 - 0.1 * (eu k - us k) / 100)
    eu_asia_shift := fun k =>
      base_trade_flows_Asia_exports * (1 - 0.15 * (eu k - asia k) / 100)
    eu_global_south_shift := fun k =>
      base_trade_flows_Global_South_exports * (1 - 0.15 * (eu k - gs k) / 100)
    asia_cbam_impact := fun k => -0.2 * cbam .Asia k
    global_south_cbam_impact := fun k => -0.2 * cbam .GlobalSouth k
    maturity := fun reg k => min (regional_market_maturity reg * (1 + 0.02) ^ k) 1
    pressure := fun reg k => min (regional_regulatory_pressure reg * (1 + 0.03) ^ k) 1
    sensitivity := fun reg k => max (regional_price_sensitivity reg * (1 - 0.01) ^ k) 0.5 }

/-- The tables returned by `SteelIndustryModel.simulate_scenario`. -/
structure SteelResults where
  costs : SteelTech → ℕ → ℚ
  technology_mix : SteelTech → ℕ → ℚ
  production : SteelTech → ℕ → ℚ
  emissions : SteelTech → ℕ → ℚ
  emissions_total : ℕ → ℚ

/-- `SteelIndustryModel.simulate_scenario`. -/
def steel_simulate (s : SteelScenario) : SteelResults :=
  let costs := steel_total_cost s
  let adoption := steel_adoption s costs
  let total_production := fun k : ℕ => steel_base_production * (1 + 0.02) ^ k
  let production := fun t k => total_production k * adoption t k
  let emissions := fun t k => production t k * steel_tech_carbon_intensity t
  { costs := costs
    technology_mix := adoption
    production := production
    emissions := emissions
    emissions_total := fun k => emissions .BFBOF k + emissions .EAF k + emissions .H2DRI k }

/-- The tables returned by `CementIndustryModel.simulate_scenario`. -/
structure CementResults where
  costs : CementTech → ℕ → ℚ
  technology_mix : CementTech → ℕ → ℚ
  production : CementTech → ℕ → ℚ
  emissions : CementTech → ℕ → ℚ
  emissions_total : ℕ → ℚ

/-- `CementIndustryModel.simulate_scenario`. -/
def cement_simulate (s : CementScenario) : CementResults :=
  let costs := cement_total_cost s
  let adoption := cement_adoption s costs
  let total_production := fun k : ℕ => cement_base_production * (1 + 0.015) ^ k
  let production := fun t k => total_production k * adoption t k
  let emissions := fun t k =>
    production t k * cement_tech_carbon_intensity t +
      production t k * 0.1 * (1 - cement_alternative_fuel_share t)
  { costs := costs
    technology_mix := adoption
    production := production
    emissions := emissions
    emissions_total := fun k =>
      emissions .Conventional k + emissions .Efficient k + emissions .Alternative k }

/-! ### Market transformation model (`core/market.py`) -/

/-- `MarketScenario` dataclass. -/
structure MarketScenario where
  name : String
  carbon_price_start : ℚ
  carbon_price_growth : ℚ
  steel_hydrogen_cost_start : ℚ
  steel_hydrogen_cost_growth : ℚ
  steel_electricity_cost_start : ℚ
  steel_electricity_cost_growth : ℚ
  cement_electricity_cost_start : ℚ
  cement_electricity_cost_growth : ℚ
  cement_alternative_fuel_cost_start : ℚ
  cement_alternative_fuel_cost_growth : ℚ
  green_premium_start : ℚ
  green_premium_growth : ℚ
  customer_adoption_rate : ℚ
  regulatory_pressure_growth : ℚ
deriving Repr, DecidableEq

/-- Customer segments of `MarketTransformationModel._init_market_data`. -/
inductive Segment | PublicInfrastructure | Commercial | Residential | Industrial
deriving Repr, DecidableEq

/-- `self.customer_segments[segment]['share']`. -/
def segment_share : Segment → ℚ
  | .PublicInfrastructure => 0.25
  | .Commercial => 0.35
  | .Residential => 0.20
  | .Industrial => 0.20

/-- `self.customer_segments[segment]['green_premium_willingness']`. -/
def green_premium_willingness : Segment → ℚ
  | .PublicInfrastructure => 0.15
  | .Commercial => 0.10
  | .Residential => 0.05
  | .Industrial => 0.08

/-- `self.customer_segments[segment]['regulatory_sensitivity']`. -/
def regulatory_sensitivity : Segment → ℚ
  | .PublicInfrastructure => 0.9
  | .Commercial => 0.7
  | .Residential => 0.5
  | .Industrial => 0.6

/-- `self.initial_green_adoption` (5% initial adoption). -/
def initial_green_adoption : ℚ := 0.05

/-- `MarketTransformationModel._calculate_market_adoption`: starts at the
initial adoption and evolves by
`min(1, prev + (1 - prev) * (regulatory_driver + market_driver))` with
`regulatory_driver = regulatory_sensitivity * (1 + regulatory_pressure_growth) ^ k`
and `market_driver = customer_adoption_rate`. -/
def calculate_market_adoption (s : MarketScenario) : Segment → ℕ → ℚ
  | _, 0 => initial_green_adoption
  | seg, k + 1 =>
    let regulatory_driver :=
      regulatory_sensitivity seg * (1 + s.regulatory_pressure_growth) ^ (k + 1)
    let market_driver := s.customer_adoption_rate
    let prev := calculate_market_adoption s seg k
    min 1 (prev + (1 - prev) * (regulatory_driver + market_driver))

/-- `MarketTransformationModel._calculate_green_premium`. -/
def calculate_green_premium (s : MarketScenario) (seg : Segment) (k : ℕ) : ℚ :=
  s.green_premium_start * (1 + s.green_premium_growth) ^ k *
    green_premium_willingness seg

/-- `MarketTransformationModel._calculate_market_value`: reads only the
`premium` table (the `adoption` argument appears in the Python signature
but is never used by the body). -/
def calculate_market_value (adoption premium : Segment → ℕ → ℚ)
    (seg : Segment) (k : ℕ) : ℚ :=
  let base_value : ℚ := 1000.0
  let market_growth : ℚ := 0.03
  let total_value := base_value * (1 + market_growth) ^ k
  total_value * segment_share seg * (1 + premium seg k)

/-- `_run_carbon_simulation`: derivation of the carbon sub-scenario. -/
def run_carbon_simulation_scenario (s : MarketScenario) : CarbonPriceScenario :=
  { eu_ets_base := s.carbon_price_start
    eu_ets_growth_rate := s.carbon_price_growth
    cbam_implementation_year := 2026
    us_carbon_price_start := s.carbon_price_start * 0.8
    us_carbon_price_growth := s.carbon_price_growth
    asian_market_adoption_rate := 0.05
    global_south_adoption_rate := 0.03 }

/-- `_run_steel_simulation`: derivation of the steel sub-scenario. -/
def run_steel_simulation_scenario (s : MarketScenario) : SteelScenario :=
  { carbon_price_start := s.carbon_price_start
    carbon_price_growth := s.carbon_price_growth
    hydrogen_cost_start := s.steel_hydrogen_cost_start
    hydrogen_cost_growth := s.steel_hydrogen_cost_growth
    electricity_cost_start := s.steel_electricity_cost_start
    electricity_cost_growth := s.steel_electricity_cost_growth
    scrap_availability_growth := 0.03
    technology_adoption_rate := 0.05 }

/-- `_run_cement_simulation`: derivation of the cement sub-scenario. -/
def run_cement_simulation_scenario (s : MarketScenario) : CementScenario :=
  { carbon_price_start := s.carbon_price_start
    carbon_price_growth := s.carbon_price_growth
    electricity_cost_start := s.cement_electricity_cost_start
    electricity_cost_growth := s.cement_electricity_cost_growth
    alternative_fuel_cost_start := s.cement_alternative_fuel_cost_start
    alternative_fuel_cost_growth := s.cement_alternative_fuel_cost_growth
    clinker_substitution_rate := 0.05
    technology_adoption_rate := 0.04 }

/-- The bundle of tables returned by
`MarketTransformationModel.simulate_scenario`. -/
structure MarketResults where
  carbon_pricing : CarbonResults
  steel_industry : SteelResults
  cement_industry : CementResults
  market_adoption : Segment → ℕ → ℚ
  green_premium : Segment → ℕ → ℚ
  market_value : Segment → ℕ → ℚ

/-- `MarketTransformationModel.simulate_scenario`, in state-passing form:
the model state (its year range; all other attributes are the read-only
constants above) is threaded through and returned, mirroring that the
Python method assigns to no attribute of `self`. -/
def market_simulate_scenario (st : ModelRange) (s : MarketScenario) :
    MarketResults × ModelRange :=
  let carbon_results := carbon_simulate st (run_carbon_simulation_scenario s)
  let steel_results := steel_simulate (run_steel_simulation_scenario s)
  let cement_results := cement_simulate (run_cement_simulation_scenario s)
  let adoption := calculate_market_adoption s
  let premium := calculate_green_premium s
  let market_value := calculate_market_value adoption premium
  ({ carbon_pricing := carbon_results
     steel_industry := steel_results
     cement_industry := cement_results
     market_adoption := adoption
     green_premium := premium
     market_value := market_value }, st)

/-- The baseline `MarketScenario` of the `__main__` block of
`core/market.py` (also the named defaults of `main.run_simulation`). -/
def baseline_scenario : MarketScenario :=
  { name := "Baseline"
    carbon_price_start := 80.0
    carbon_price_growth := 0.08
    steel_hydrogen_cost_start := 4.0
    steel_hydrogen_cost_growth := -0.05
    steel_electricity_cost_start := 60.0
    steel_electricity_cost_growth := 0.02
    cement_electricity_cost_start := 60.0
    cement_electricity_cost_growth := 0.02
    cement_alternative_fuel_cost_start := 30.0
    cement_alternative_fuel_cost_growth := -0.03
    green_premium_start := 0.15
    green_premium_growth := 0.05
    customer_adoption_rate := 0.08
    regulatory_pressure_growth := 0.10 }

/-! ### Claim theorems for the market transformation model -/

/-- **C1 counterexample.** The spec's recurrence
`adoption(y) = min(1, adoption(y-1) + regulatory_driver(y) * base_rate)`
fails on the code already for the baseline scenario, segment Public
Infrastructure, in the first simulated step: the code yields `1` (its
drivers enter as `(1-prev)*(reg_driver + base_rate)`), the spec formula
yields `0.1292`. -/
theorem C1_counterexample :
    calculate_market_adoption baseline_scenario Segment.PublicInfrastructure 1 ≠
      min 1 (calculate_market_adoption baseline_scenario Segment.PublicInfrastructure 0 +
        regulatory_sensitivity Segment.PublicInfrastructure *
          (1 + baseline_scenario.regulatory_pressure_growth) ^ 1 *
          baseline_scenario.customer_adoption_rate) := by
  have e0 : calculate_market_adoption baseline_scenario Segment.PublicInfrastructure 0 =
      (0.05 : ℚ) := rfl
  have e1 : calculate_market_adoption baseline_scenario Segment.PublicInfrastructure 1 =
      min 1 ((0.05 : ℚ) + (1 - 0.05) * (0.9 * (1 + 0.10) ^ 1 + 0.08)) := rfl
  rw [e0, e1, min_eq_left (by norm_num),
    min_eq_right (by norm_num [baseline_scenario, regulatory_sensitivity])]
  norm_num [baseline_scenario, regulatory_sensitivity]

/-- **C1 (amended).** For every scenario, segment and year, the
aggregator's segment adoption follows
`adoption(y) = min(1, adoption(y-1) + (1 - adoption(y-1)) *
(regulatory_driver(y) + base_rate))`, with `regulatory_driver(y)` the
segment's regulatory sensitivity times the compounded regulatory
pressure and `base_rate` the scenario's customer adoption rate. -/
theorem C1_amended_adoption_recurrence (s : MarketScenario) (seg : Segment) (k : ℕ) :
    calculate_market_adoption s seg (k + 1) =
      min 1 (calculate_market_adoption s seg k +
        (1 - calculate_market_adoption s seg k) *
          (regulatory_sensitivity seg * (1 + s.regulatory_pressure_growth) ^ (k + 1) +
            s.customer_adoption_rate)) := rfl

/-- The scenario used to refute C2 as stated: every growth/rate parameter
exceeds -1 and every base value is positive, yet the customer adoption
rate is negative. -/
def degrowth_scenario : MarketScenario :=
  { name := "Degrowth"
    carbon_price_start := 80.0
    carbon_price_growth := 0.08
    steel_hydrogen_cost_start := 4.0
    steel_hydrogen_cost_growth := -0.05
    steel_electricity_cost_start := 60.0
    steel_electricity_cost_growth := 0.02
    cement_electricity_cost_start := 60.0
    cement_electricity_cost_growth := 0.02
    cement_alternative_fuel_cost_start := 30.0
    cement_alternative_fuel_cost_growth := -0.03
    green_premium_start := 0.15
    green_premium_growth := 0.05
    customer_adoption_rate := -0.5
    regulatory_pressure_growth := -0.9 }

/-- **C2 counterexample.** A scenario that is valid in the spec's sense
(all rate parameters `> -1`, all base values `> 0`) on which the
Residential adoption series decreases in the first step and leaves
`[0,1]`: with `customer_adoption_rate = -0.5` and
`regulatory_pressure_growth = -0.9` the second entry is `-0.3775`. -/
theorem C2_counterexample :
    (-1 < degrowth_scenario.carbon_price_growth ∧
      -1 < degrowth_scenario.steel_hydrogen_cost_growth ∧
      -1 < degrowth_scenario.steel_electricity_cost_growth ∧
      -1 < degrowth_scenario.cement_electricity_cost_growth ∧
      -1 < degrowth_scenario.cement_alternative_fuel_cost_growth ∧
      -1 < degrowth_scenario.green_premium_growth ∧
      -1 < degrowth_scenario.customer_adoption_rate ∧
      -1 < degrowth_scenario.regulatory_pressure_growth ∧
      0 < degrowth_scenario.carbon_price_start ∧
      0 < degrowth_scenario.steel_hydrogen_cost_start ∧
      0 < degrowth_scenario.steel_electricity_cost_start ∧
      0 < degrowth_scenario.cement_electricity_cost_start ∧
      0 < degrowth_scenario.cement_alternative_fuel_cost_start ∧
      0 < degrowth_scenario.green_premium_start) ∧
    calculate_market_adoption degrowth_scenario Segment.Residential 1 <
      calculate_market_adoption degrowth_scenario Segment.Residential 0 ∧
    calculate_market_adoption degrowth_scenario Segment.Residential 1 < 0 := by
  have e0 : calculate_market_adoption degrowth_scenario Segment.Residential 0 =
      (0.05 : ℚ) := rfl
  have e1 : calculate_market_adoption degrowth_scenario Segment.Residential 1 =
      min 1 ((0.05 : ℚ) + (1 - 0.05) * (0.5 * (1 + -0.9) ^ 1 + -0.5)) := rfl
  refine ⟨by norm_num [degrowth_scenario], ?_, ?_⟩
  · rw [e0, e1, min_eq_right (by norm_num)]
    norm_num
  · rw [e1, min_eq_right (by norm_num)]
    norm_num

/-- Unfolding lemma for one step of the market adoption recurrence. -/
lemma calculate_market_adoption_succ (s : MarketScenario) (seg : Segment) (k : ℕ) :
    calculate_market_adoption s seg (k + 1) =
      min 1 (calculate_market_adoption s seg k +
        (1 - calculate_market_adoption s seg k) *
          (regulatory_sensitivity seg * (1 + s.regulatory_pressure_growth) ^ (k + 1) +
            s.customer_adoption_rate)) := rfl

/-- Every segment's regulatory sensitivity is non-negative. -/
lemma regulatory_sensitivity_nonneg (seg : Segment) :
    0 ≤ regulatory_sensitivity seg := by
  cases seg <;> norm_num [regulatory_sensitivity]

/-- Under `regulatory_pressure_growth > -1` and a non-negative customer
adoption rate, the segment adoption series stays in `[0,1]`. -/
lemma market_adoption_bounds (s : MarketScenario) (seg : Segment)
    (hg : -1 < s.regulatory_pressure_growth)
    (hm : 0 ≤ s.customer_adoption_rate) (k : ℕ) :
    0 ≤ calculate_market_adoption s seg k ∧
      calculate_market_adoption s seg k ≤ 1 := by
  induction k with
  | zero =>
    constructor <;> norm_num [calculate_market_adoption, initial_green_adoption]
  | succ k ih =>
    have hpow : (0 : ℚ) < (1 + s.regulatory_pressure_growth) ^ (k + 1) :=
      pow_pos (by linarith) (k + 1)
    have hx : 0 ≤ regulatory_sensitivity seg *
        (1 + s.regulatory_pressure_growth) ^ (k + 1) + s.customer_adoption_rate := by
      have := mul_nonneg (regulatory_sensitivity_nonneg seg) hpow.le
      linarith
    rw [calculate_market_adoption_succ]
    constructor
    · apply le_min (by norm_num)
      nlinarith [ih.1, ih.2]
    · exact min_le_left _ _

/-- **C2 (amended).** For every scenario whose rate parameters exceed -1
and whose `customer_adoption_rate` is additionally non-negative, every
segment adoption entry lies in `[0,1]` and the series is monotonically
non-decreasing from one year to the next. -/
theorem C2_amended_adoption_monotone_bounded (s : MarketScenario) (seg : Segment)
    (hg : -1 < s.regulatory_pressure_growth)
    (hm : 0 ≤ s.customer_adoption_rate) (k : ℕ) :
    (0 ≤ calculate_market_adoption s seg k ∧
      calculate_market_adoption s seg k ≤ 1) ∧
    calculate_market_adoption s seg k ≤ calculate_market_adoption s seg (k + 1) := by
  have hb := market_adoption_bounds s seg hg hm k
  refine ⟨hb, ?_⟩
  have hpow : (0 : ℚ) < (1 + s.regulatory_pressure_growth) ^ (k + 1) :=
    pow_pos (by linarith) (k + 1)
  have hx : 0 ≤ regulatory_sensitivity seg *
      (1 + s.regulatory_pressure_growth) ^ (k + 1) + s.customer_adoption_rate := by
    have := mul_nonneg (regulatory_sensitivity_nonneg seg) hpow.le
    linarith
  rw [calculate_market_adoption_succ]
  apply le_min hb.2
  nlinarith [hb.1, hb.2]

/-- Witness for the amended C2 at the baseline scenario, segment
Commercial, first step. -/
theorem C2_amended_adoption_monotone_bounded_witness :
    (0 ≤ calculate_market_adoption baseline_scenario Segment.Commercial 1 ∧
      calculate_market_adoption baseline_scenario Segment.Commercial 1 ≤ 1) ∧
    calculate_market_adoption baseline_scenario Segment.Commercial 1 ≤
      calculate_market_adoption baseline_scenario Segment.Commercial 2 :=
  C2_amended_adoption_monotone_bounded baseline_scenario Segment.Commercial
    (by norm_num [baseline_scenario]) (by norm_num [baseline_scenario]) 1

/-- **C7.** Running `simulate_scenario` twice on the same model instance
with the same scenario yields identical bundles: the first call returns
the model state unchanged (the method assigns to no attribute), so the
second call reads exactly the state the first one read. -/
theorem C7_simulate_scenario_idempotent (st : ModelRange) (s : MarketScenario) :
    (market_simulate_scenario (market_simulate_scenario st s).2 s).1 =
      (market_simulate_scenario st s).1 := rfl

/-- **C9.** Two scenarios that agree on `green_premium_start` and
`green_premium_growth` produce identical `market_value` tables, however
much they differ elsewhere: `_calculate_market_value` never reads the
adoption table it is passed. -/
theorem C9_market_value_ignores_adoption (st : ModelRange) (s1 s2 : MarketScenario)
    (h1 : s1.green_premium_start = s2.green_premium_start)
    (h2 : s1.green_premium_growth = s2.green_premium_growth) :
    (market_simulate_scenario st s1).1.market_value =
      (market_simulate_scenario st s2).1.market_value := by
  funext seg k
  show calculate_market_value (calculate_market_adoption s1)
      (calculate_green_premium s1) seg k =
    calculate_market_value (calculate_market_adoption s2)
      (calculate_green_premium s2) seg k
  simp only [calculate_market_value, calculate_green_premium, h1, h2]

/-- A variant of the baseline scenario with different adoption and
regulatory-pressure parameters but the same premium parameters. -/
def baseline_variant_scenario : MarketScenario :=
  { baseline_scenario with
    customer_adoption_rate := 0.01
    regulatory_pressure_growth := 0.02 }

/-- Witness for C9: baseline vs. its adoption-parameter variant. -/
theorem C9_market_value_ignores_adoption_witness :
    (market_simulate_scenario ⟨2025, 2040⟩ baseline_scenario).1.market_value =
      (market_simulate_scenario ⟨2025, 2040⟩ baseline_variant_scenario).1.market_value :=
  C9_market_value_ignores_adoption ⟨2025, 2040⟩ baseline_scenario
    baseline_variant_scenario rfl rfl

/-! ### CLI entry point (`main.py`) -/

/-- A scenario configuration mapping: each key either present or omitted
(`scenario_config.get(key, default)`). -/
structure ScenarioConfig where
  name : Option String
  carbon_price_start : Option ℚ
  carbon_price_growth : Option ℚ
  steel_hydrogen_cost_start : Option ℚ
  steel_hydrogen_cost_growth : Option ℚ
  steel_electricity_cost_start : Option ℚ
  steel_electricity_cost_growth : Option ℚ
  cement_electricity_cost_start : Option ℚ
  cement_electricity_cost_growth : Option ℚ
  cement_alternative_fuel_cost_start : Option ℚ
  cement_alternative_fuel_cost_growth : Option ℚ
  green_premium_start : Option ℚ
  green_premium_growth : Option ℚ
  customer_adoption_rate : Option ℚ
  regulatory_pressure_growth : Option ℚ

/-- The configuration with every key omitted. -/
def empty_config : ScenarioConfig :=
  ⟨none, none, none, none, none, none, none, none, none, none, none, none,
    none, none, none⟩

/-- The scenario construction at the top of `run_simulation`: every field
is `scenario_config.get(key, default)` with the named defaults of
`main.py` lines 28-44. -/
def run_simulation_scenario (c : ScenarioConfig) : MarketScenario :=
  { name := c.name.getD "Custom"
    carbon_price_start := c.carbon_price_start.getD 80.0
    carbon_price_growth := c.carbon_price_growth.getD 0.08
    steel_hydrogen_cost_start := c.steel_hydrogen_cost_start.getD 4.0
    steel_hydrogen_cost_growth := c.steel_hydrogen_cost_growth.getD (-0.05)
    steel_electricity_cost_start := c.steel_electricity_cost_start.getD 60.0
    steel_electricity_cost_growth := c.steel_electricity_cost_growth.getD 0.02
    cement_electricity_cost_start := c.cement_electricity_cost_start.getD 60.0
    cement_electricity_cost_growth := c.cement_electricity_cost_growth.getD 0.02
    cement_alternative_fuel_cost_start := c.cement_alternative_fuel_cost_start.getD 30.0
    cement_alternative_fuel_cost_growth := c.cement_alternative_fuel_cost_growth.getD (-0.03)
    green_premium_start := c.green_premium_start.getD 0.15
    green_premium_growth := c.green_premium_growth.getD 0.05
    customer_adoption_rate := c.customer_adoption_rate.getD 0.08
    regulatory_pressure_growth := c.regulatory_pressure_growth.getD 0.10 }

/-- An entry of the dictionary `MarketTransformationModel.simulate_scenario`
returns (a sub-model result bundle or a single table). -/
inductive ResultEntry
  | carbon (r : CarbonResults)
  | steel (r : SteelResults)
  | cement (r : CementResults)
  | table (t : Segment → ℕ → ℚ)

/-- The dictionary literal returned by
`MarketTransformationModel.simulate_scenario` (`market.py` lines 115-122),
with its six keys in source order. -/
def market_simulate_scenario_dict (st : ModelRange) (s : MarketScenario) :
    List (String × ResultEntry) :=
  let b := (market_simulate_scenario st s).1
  [("carbon_pricing", .carbon b.carbon_pricing),
   ("steel_industry", .steel b.steel_industry),
   ("cement_industry", .cement b.cement_industry),
   ("market_adoption", .table b.market_adoption),
   ("green_premium", .table b.green_premium),
   ("market_value", .table b.market_value)]

/-- Python `d[key]` on a result dictionary: the value when the key is
present, a `KeyError` carrying the key otherwise. -/
def dict_getitem (d : List (String × ResultEntry)) (key : String) :
    Except String ResultEntry :=
  match d.find? (fun p => p.1 == key) with
  | some p => .ok p.2
  | none => .error key

/-- `main.run_simulation`: builds the `MarketScenario` from the
configuration with defaults, runs the market model (default 2025-2040
range) and the stand-alone steel and cement models, then merges results
by subscripting the market dictionary with the keys `market_adoption`,
`market_value` and `regional_evolution` (`main.py` lines 81-87).
A missing key is a raised `KeyError`, modelled as `Except.error`. -/
def run_simulation (c : ScenarioConfig) :
    Except String (ResultEntry × ResultEntry × ResultEntry × SteelResults × CementResults) := do
  let scenario := run_simulation_scenario c
  let market_results := market_simulate_scenario_dict ⟨2025, 2040⟩ scenario
  let steel_results := steel_simulate
    { carbon_price_start := scenario.carbon_price_start
      carbon_price_growth := scenario.carbon_price_growth
      hydrogen_cost_start := scenario.steel_hydrogen_cost_start
      hydrogen_cost_growth := scenario.steel_hydrogen_cost_growth
      electricity_cost_start := scenario.steel_electricity_cost_start
      electricity_cost_growth := scenario.steel_electricity_cost_growth
      scrap_availability_growth := 0.03
      technology_adoption_rate := 0.05 }
  let cement_results := cement_simulate
    { carbon_price_start := scenario.carbon_price_start
      carbon_price_growth := scenario.carbon_price_growth
      electricity_cost_start := scenario.cement_electricity_cost_start
      electricity_cost_growth := scenario.cement_electricity_cost_growth
      alternative_fuel_cost_start := scenario.cement_alternative_fuel_cost_start
      alternative_fuel_cost_growth := scenario.cement_alternative_fuel_cost_growth
      clinker_substitution_rate := 0.05
      technology_adoption_rate := 0.04 }
  let market_adoption ← dict_getitem market_results "market_adoption"
  let market_value ← dict_getitem market_results "market_value"
  let regional_evolution ← dict_getitem market_results "regional_evolution"
  return (market_adoption, market_value, regional_evolution, steel_results, cement_results)

/-- **C8.** Missing configuration keys are indeed resolved to the named
defaults (the empty configuration yields exactly the documented default
scenario), but `run_simulation` then fails for every configuration: it
subscripts the market results with `regional_evolution`, a key the
bundle returned by `simulate_scenario` never contains, so the merge
raises `KeyError` and the computation never proceeds to a result. -/
theorem C8_run_simulation_keyerror :
    run_simulation_scenario empty_config =
      { name := "Custom"
        carbon_price_start := 80.0
        carbon_price_growth := 0.08
        steel_hydrogen_cost_start := 4.0
        steel_hydrogen_cost_growth := -0.05
        steel_electricity_cost_start := 60.0
        steel_electricity_cost_growth := 0.02
        cement_electricity_cost_start := 60.0
        cement_electricity_cost_growth := 0.02
        cement_alternative_fuel_cost_start := 30.0
        cement_alternative_fuel_cost_growth := -0.03
        green_premium_start := 0.15
        green_premium_growth := 0.05
        customer_adoption_rate := 0.08
        regulatory_pressure_growth := 0.10 } ∧
    ∀ c : ScenarioConfig, run_simulation c = .error "regional_evolution" := by
  exact ⟨rfl, fun c => rfl⟩

end ConstructionSim
